import Mathlib

/-!
# Verification of the Grade-Viewer lookup core (`src/app.py`)

A shallow embedding of the data-lookup and validation logic of the
Streamlit grade viewer. The sheet fetch (gspread network calls) and the
widget layer are external collaborators; everything downstream of them —
ID normalization, suffix matching, query validation, column validation
and the result rendering of the `if submitted:` handler — is embedded
here directly from `src/app.py` and proved against the specification.

Conventions of the embedding:
* A roster cell is `Cell`: a string, an integer-typed number, a float
  holding an integral value (which Python stringifies with a trailing
  ".0", the artifact the normalizer removes), or an empty cell (gspread
  `get_all_records` renders empty cells as the empty string).
* A dataframe is `Frame`: an ordered column-name list plus ordered rows,
  each row a list of cells aligned positionally with the columns.
* Python string primitives used by the source (`str.strip`, `str.replace
  (".0", "")`, `str.isdigit`, `s[-6:]`, `len`, `str.lower`) are modelled
  as explicit functions over the character list of the string.
-/

/-- A raw roster cell value. `floatWhole n` is a float cell holding the
integral value `n`; Python renders such floats as the decimal digits
followed by ".0" (the spreadsheet numeric-coercion artifact). `empty`
is a missing/blank cell, which the sheet loader delivers as the empty
string. -/
inductive Cell where
  | str (s : String)
  | nat (n : Nat)
  | floatWhole (n : Nat)
  | empty
deriving DecidableEq, Repr

/-- Python `str(cell)` on the values a roster cell can hold. -/
def cellToStr : Cell → String
  | Cell.str s => s
  | Cell.nat n => toString n
  | Cell.floatWhole n => toString n ++ ".0"
  | Cell.empty => ""

/-- The whitespace class stripped by Python `str.strip()` (ASCII part). -/
def pyIsSpace (c : Char) : Bool :=
  c == ' ' || c == '\t' || c == '\n' || c == '\r' || c == '\x0b' || c == '\x0c'

/-- Python `s.strip()`: drop leading and trailing whitespace. -/
def pyStrip (s : String) : String :=
  ⟨((s.data.dropWhile pyIsSpace).reverse.dropWhile pyIsSpace).reverse⟩

/-- Python `s.replace(".0", "", regex=False)` on the character list:
remove every non-overlapping occurrence of the two-character substring
".0", scanning left to right. -/
def removeDot0 : List Char → List Char
  | [] => []
  | [c] => [c]
  | c :: d :: rest =>
      if c = '.' ∧ d = '0' then removeDot0 rest else c :: removeDot0 (d :: rest)

/-- The identifier normalizer of `find_student` (src/app.py line 56):
`df[ID_COL].astype(str).str.replace(".0", "", regex=False).str.strip()`
applied to one cell. -/
def normalizeId (c : Cell) : String :=
  pyStrip ⟨removeDot0 (cellToStr c).data⟩

/-- Python `s[-n:]`: the last `min n (len s)` characters of `s`. -/
def lastN (n : Nat) (s : String) : String :=
  ⟨s.data.drop (s.data.length - n)⟩

/-- Python `str.isdigit` on one character: true for characters of
Unicode `Numeric_Type` Decimal or Digit. Besides the ASCII digits this
includes (among the blocks relevant here) the superscript and subscript
digits, the Arabic-Indic, extended Arabic-Indic, Devanagari and
fullwidth decimal digits. -/
def pyIsDigitChar (c : Char) : Bool :=
  ('0' ≤ c && c ≤ '9')
  || c == '¹' || c == '²' || c == '³'
  || (0x2070 ≤ c.val && c.val ≤ 0x2079 && c.val ≠ 0x2071 && c.val ≠ 0x2072 && c.val ≠ 0x2073)
  || (0x2080 ≤ c.val && c.val ≤ 0x2089)
  || (0x660 ≤ c.val && c.val ≤ 0x669)
  || (0x6F0 ≤ c.val && c.val ≤ 0x6F9)
  || (0x966 ≤ c.val && c.val ≤ 0x96F)
  || (0xFF10 ≤ c.val && c.val ≤ 0xFF19)

/-- Python `s.isdigit()`: nonempty and every character a digit. -/
def pyIsDigit (s : String) : Bool :=
  !s.data.isEmpty && s.data.all pyIsDigitChar

/-- Python `s.lower()` restricted charwise (labels here are ASCII). -/
def pyLower (s : String) : String :=
  ⟨s.data.map Char.toLower⟩

/-- The immutable configuration read from `st.secrets`: `ID_COL`,
`GRADE_COLUMNS` (label to column header) and the optional
`GRADE_DETAILS` (label to breakdown column list). -/
structure Config where
  idCol : String
  gradeColumns : List (String × String)
  gradeDetails : List (String × List String)
deriving DecidableEq, Repr

/-- A pandas dataframe as the core sees it: ordered column names and
ordered rows, each row aligned positionally with `cols`. -/
structure Frame where
  cols : List String
  rows : List (List Cell)
deriving DecidableEq, Repr

/-- Cell access `row[col]` resp. `row.get(col, "")`: the entry of the
row at the position of `col` in the column list, an empty cell when the
column is absent (the handler only reads columns it has validated, or
uses the `""` default of `Series.get`). -/
def frameGet (cols : List String) (r : List Cell) (c : String) : Cell :=
  match cols.findIdx? (· == c) with
  | some i => r.getD i Cell.empty
  | none => Cell.empty

/-- `df[cs]`: column projection, keeping row order. -/
def Frame.select (df : Frame) (cs : List String) : Frame :=
  { cols := cs, rows := df.rows.map (fun r => cs.map (fun c => frameGet df.cols r c)) }

/-- `df.rename(columns={old: new})`: rename every column named `old`. -/
def Frame.renameCol (df : Frame) (old new : String) : Frame :=
  { cols := df.cols.map (fun c => if c == old then new else c), rows := df.rows }

/-- The row predicate of `find_student`: the normalized ID cell of the
row, truncated to its last 6 characters, equals the query. -/
def matchesQuery (cols : List String) (idCol q : String) (r : List Cell) : Bool :=
  lastN 6 (normalizeId (frameGet cols r idCol)) == q

/-- `find_student` (src/app.py lines 55-57): build the normalized ID
series, compare its last-6 slice against the query, and keep the rows
where the boolean mask holds. -/
def find_student (cfg : Config) (df : Frame) (last6 : String) : Frame :=
  let ids := df.rows.map (fun r => normalizeId (frameGet df.cols r cfg.idCol))
  let mask := ids.map (fun s => lastN 6 s == last6)
  { cols := df.cols, rows := ((df.rows.zip mask).filter (fun p => p.2)).map (fun p => p.1) }

/-- The query validation of the submitted handler (src/app.py line 72):
`last6.isdigit() and len(last6) == 6`. -/
def validQuery (q : String) : Bool :=
  pyIsDigit q && q.data.length == 6

/-- `load_sheet` after the external fetch (src/app.py lines 51-53):
records become the rows, and every header cell is coerced by
`str(c).strip()` to form the column names. -/
def load_sheet (headers : List Cell) (records : List (List Cell)) : Frame :=
  { cols := headers.map (fun c => pyStrip (cellToStr c)), rows := records }

/-- What the found branch displays for the breakdown section: the
missing-columns warning payload, the metric lines (column, value), and
the breakdown table of the expander. -/
structure BreakdownDisplay where
  missing : List String
  metrics : List (String × String)
  table : Frame
deriving DecidableEq, Repr

/-- Everything the found branch exposes to the requester: the metric
(label, stringified value), the fixed policy note flag, the optional
breakdown section and the details table. -/
structure FoundDisplay where
  label : String
  value : String
  policyNote : Bool
  breakdown : Option BreakdownDisplay
  details : Frame
deriving DecidableEq, Repr

/-- Terminal state of one run of the submitted handler. Error and
ambiguous outcomes carry exactly the data the code puts in the message:
the ambiguous outcome carries nothing beyond the fixed notice. -/
inductive Outcome where
  | invalidQuery
  | loadFailure
  | schemaIdMissing (idCol : String) (found : List String)
  | schemaGradeMissing (gradeCol label : String) (found : List String)
  | configKeyError (label : String)
  | notFound
  | ambiguous
  | found (d : FoundDisplay)
deriving DecidableEq, Repr

/-- The found branch rendering (src/app.py lines 105-150): metric value
via `row.get(target_col, "")`, policy note when the label lowercases to
"prelim grade", breakdown section when `GRADE_DETAILS` configures a
nonempty list for the label, and the details table. -/
def renderFound (cfg : Config) (df hits : Frame) (target sel : String) : FoundDisplay :=
  let row := hits.rows.headD []
  let value := cellToStr (frameGet df.cols row target)
  let detailCols := (cfg.gradeDetails.lookup sel).getD []
  let breakdown :=
    if detailCols.isEmpty then none
    else
      let missing := detailCols.filter (fun c => !(df.cols.contains c))
      let present := detailCols.filter (fun c => df.cols.contains c)
      let metrics := present.map (fun c => (c, cellToStr (frameGet df.cols row c)))
      let table := (hits.select (cfg.idCol :: target :: present)).renameCol target sel
      some { missing := missing, metrics := metrics, table := table }
  let details : Frame :=
    { cols := ["ID Number", sel], rows := (hits.select [cfg.idCol, target]).rows }
  { label := sel, value := value, policyNote := pyLower sel == "prelim grade",
    breakdown := breakdown, details := details }

/-- The `if submitted:` handler (src/app.py lines 70-150). `loaded` is
the result of the external `load_sheet` collaborator (`none` models a
raised fetch exception), `raw` the text-input value, `sel` the selected
grade label. -/
def submitted (cfg : Config) (loaded : Option Frame) (raw : Option String) (sel : String) :
    Outcome :=
  let last6 := pyStrip (raw.getD "")
  if !(validQuery last6) then Outcome.invalidQuery
  else
    match loaded with
    | none => Outcome.loadFailure
    | some df =>
      if !(df.cols.contains cfg.idCol) then Outcome.schemaIdMissing cfg.idCol df.cols
      else
        match cfg.gradeColumns.lookup sel with
        | none => Outcome.configKeyError sel
        | some target =>
          if !(df.cols.contains target) then Outcome.schemaGradeMissing target sel df.cols
          else
            let hits := find_student cfg df last6
            if hits.rows.isEmpty then Outcome.notFound
            else if 1 < hits.rows.length then Outcome.ambiguous
            else Outcome.found (renderFound cfg df hits target sel)

/-!
## General lemmas about the embedded Python string primitives
-/

/-- The character data of `pyStrip` is a right-strip after a left-strip. -/
lemma pyStrip_data (s : String) :
    (pyStrip s).data = List.rdropWhile pyIsSpace (s.data.dropWhile pyIsSpace) := rfl

lemma dropWhile_rdropWhile_of_fix {α : Type} {p : α → Bool} {m : List α}
    (h : m.dropWhile p = m) :
    (List.rdropWhile p m).dropWhile p = List.rdropWhile p m := by
  rcases hx : List.rdropWhile p m with _ | ⟨a, x⟩
  · rfl
  · obtain ⟨t, ht⟩ := List.dropWhile_suffix (l := m.reverse) p
    have hm : m = List.rdropWhile p m ++ t.reverse := by
      have h2 := congrArg List.reverse ht
      simp only [List.reverse_append, List.reverse_reverse] at h2
      rw [List.rdropWhile]
      exact h2.symm
    by_cases hpa : p a = true
    · exfalso
      rw [hm, hx] at h
      rw [List.cons_append, List.dropWhile_cons_of_pos hpa] at h
      have hlen := congrArg List.length h
      have hle := (List.dropWhile_suffix (l := x ++ t.reverse) p).length_le
      simp only [List.length_cons] at hlen
      omega
    · rw [List.dropWhile_cons_of_neg hpa]

/-- Left-stripping a stripped string changes nothing. -/
lemma dropWhile_pyStrip (s : String) :
    (pyStrip s).data.dropWhile pyIsSpace = (pyStrip s).data := by
  rw [pyStrip_data]
  exact dropWhile_rdropWhile_of_fix (List.dropWhile_idempotent pyIsSpace s.data)

/-- Python `s.strip()` is idempotent. -/
lemma pyStrip_idem (s : String) : pyStrip (pyStrip s) = pyStrip s := by
  apply String.ext
  rw [pyStrip_data (pyStrip s), dropWhile_pyStrip, pyStrip_data s,
    List.rdropWhile_idempotent, ← pyStrip_data]

/-- Stripping ignores an all-whitespace suffix glued to the list. -/
lemma rdropWhile_append_of_all {α : Type} {p : α → Bool} {b : List α} (m : List α)
    (hb : ∀ x ∈ b, p x = true) :
    List.rdropWhile p (m ++ b) = List.rdropWhile p m := by
  rw [List.rdropWhile, List.rdropWhile, List.reverse_append,
    List.dropWhile_append_of_pos (by simpa using hb)]

/-- Python strip is insensitive to surrounding whitespace: padding a
string with whitespace on either side leaves its stripped form
unchanged. -/
lemma pyStrip_pad (a b : List Char) (s : String)
    (ha : ∀ c ∈ a, pyIsSpace c = true) (hb : ∀ c ∈ b, pyIsSpace c = true) :
    pyStrip ⟨a ++ s.data ++ b⟩ = pyStrip s := by
  apply String.ext
  rw [pyStrip_data, pyStrip_data]
  show List.rdropWhile pyIsSpace ((a ++ s.data ++ b).dropWhile pyIsSpace) = _
  rw [List.append_assoc, List.dropWhile_append_of_pos ha]
  by_cases h : s.data.dropWhile pyIsSpace = []
  · have hall : ∀ x ∈ s.data, pyIsSpace x = true := by
      simpa using List.dropWhile_eq_nil_iff.mp h
    have h2 : (s.data ++ b).dropWhile pyIsSpace = [] := by
      rw [List.dropWhile_eq_nil_iff]
      intro x hx
      rcases List.mem_append.mp hx with hx | hx
      · exact hall x hx
      · exact hb x hx
    rw [h, h2]
  · rw [List.dropWhile_append, if_neg (by simpa using h)]
    exact rdropWhile_append_of_all _ hb

/-- A stripped string has no leading or trailing whitespace. -/
lemma pyStrip_no_edge_space (s : String) :
    (pyStrip s).data.dropWhile pyIsSpace = (pyStrip s).data
      ∧ List.rdropWhile pyIsSpace (pyStrip s).data = (pyStrip s).data := by
  refine ⟨dropWhile_pyStrip s, ?_⟩
  rw [pyStrip_data, List.rdropWhile_idempotent]

/-!
## The row matcher
-/

/-- Keeping the rows where their own boolean mask holds is `filter`. -/
lemma zip_mask_filter {α : Type} (p : α → Bool) (l : List α) :
    ((l.zip (l.map p)).filter (fun x => x.2)).map (fun x => x.1) = l.filter p := by
  induction l with
  | nil => rfl
  | cons a t ih =>
    by_cases h : p a <;> simp [List.filter_cons, h, ih]

/-- The rows `find_student` returns are exactly the filter of the roster
rows by the match predicate, in roster order. -/
lemma find_student_rows (cfg : Config) (df : Frame) (q : String) :
    (find_student cfg df q).rows = df.rows.filter (matchesQuery df.cols cfg.idCol q) := by
  show ((df.rows.zip ((df.rows.map _).map _)).filter _).map _ = _
  rw [List.map_map]
  exact zip_mask_filter _ df.rows

/-- The columns of the matched sub-frame are the roster columns. -/
lemma find_student_cols (cfg : Config) (df : Frame) (q : String) :
    (find_student cfg df q).cols = df.cols := rfl

/-- Python `s[-6:]` returns `s` itself when `s` is shorter than 6. -/
lemma lastN_of_short (s : String) (h : s.data.length ≤ 6) : lastN 6 s = s := by
  apply String.ext
  show s.data.drop (s.data.length - 6) = s.data
  have : s.data.length - 6 = 0 := by omega
  rw [this, List.drop_zero]

/-- A normalized ID shorter than the 6-character query never matches. -/
lemma matchesQuery_false_of_short (cols : List String) (idCol q : String) (r : List Cell)
    (hq : q.data.length = 6)
    (hshort : (normalizeId (frameGet cols r idCol)).data.length < 6) :
    matchesQuery cols idCol q r = false := by
  rw [matchesQuery, lastN_of_short _ (by omega)]
  rw [beq_eq_false_iff_ne]
  intro he
  rw [he] at hshort
  omega

/-!
## The normalizer: blunt substring removal
-/

/-- A character other than a dot passes through the replacement. -/
lemma removeDot0_cons_ne (c : Char) (l : List Char) (hc : c ≠ '.') :
    removeDot0 (c :: l) = c :: removeDot0 l := by
  cases l with
  | nil => rfl
  | cons d t =>
    rw [removeDot0, if_neg]
    rintro ⟨h1, h2⟩
    exact hc h1

/-- The replacement removes ".0" wherever it occurs, not only at the
end: any occurrence after a dot-free stretch is deleted. -/
lemma removeDot0_mid (a b : List Char) (ha : ∀ c ∈ a, c ≠ '.') :
    removeDot0 (a ++ '.' :: '0' :: b) = a ++ removeDot0 b := by
  induction a with
  | nil => simp [removeDot0]
  | cons c a ih =>
    rw [List.cons_append, removeDot0_cons_ne c _ (ha c (by simp)),
      ih (fun x hx => ha x (by simp [hx])), List.cons_append]

/-!
## The query validation
-/

/-- The validation test of the handler, characterized: the (stripped)
query passes `last6.isdigit() and len(last6) == 6` exactly when it has
6 characters, every one a digit in the sense of Python isdigit. -/
lemma validQuery_iff (q : String) :
    validQuery q = true ↔ q.data.length = 6 ∧ ∀ c ∈ q.data, pyIsDigitChar c = true := by
  constructor
  · intro h
    rw [validQuery, Bool.and_eq_true, beq_iff_eq] at h
    obtain ⟨hd, hlen⟩ := h
    rw [pyIsDigit, Bool.and_eq_true, List.all_eq_true] at hd
    exact ⟨hlen, fun c hc => hd.2 c hc⟩
  · rintro ⟨hlen, hall⟩
    rw [validQuery, Bool.and_eq_true, beq_iff_eq]
    refine ⟨?_, hlen⟩
    rw [pyIsDigit, Bool.and_eq_true, List.all_eq_true]
    refine ⟨?_, fun c hc => hall c hc⟩
    rw [Bool.not_eq_true', List.isEmpty_eq_false_iff_exists_mem]
    obtain ⟨l⟩ := q
    cases l with
    | nil => simp at hlen
    | cons c t => exact ⟨c, by simp⟩

/-!
## Branch lemmas for the submitted handler
-/

lemma submitted_invalid (cfg : Config) (loaded : Option Frame) (raw : Option String)
    (sel : String) (hv : validQuery (pyStrip (raw.getD "")) = false) :
    submitted cfg loaded raw sel = Outcome.invalidQuery := by
  simp [submitted, hv]

lemma submitted_loadFailure (cfg : Config) (raw : Option String) (sel : String)
    (hv : validQuery (pyStrip (raw.getD "")) = true) :
    submitted cfg none raw sel = Outcome.loadFailure := by
  simp [submitted, hv]

lemma submitted_idMissing (cfg : Config) (df : Frame) (raw : Option String) (sel : String)
    (hv : validQuery (pyStrip (raw.getD "")) = true)
    (hid : df.cols.contains cfg.idCol = false) :
    submitted cfg (some df) raw sel = Outcome.schemaIdMissing cfg.idCol df.cols := by
  have hid2 : cfg.idCol ∉ df.cols := by simpa using hid
  simp [submitted, hv, hid2]

lemma submitted_keyError (cfg : Config) (df : Frame) (raw : Option String) (sel : String)
    (hv : validQuery (pyStrip (raw.getD "")) = true)
    (hid : df.cols.contains cfg.idCol = true)
    (hlk : cfg.gradeColumns.lookup sel = none) :
    submitted cfg (some df) raw sel = Outcome.configKeyError sel := by
  have hid2 : cfg.idCol ∈ df.cols := by simpa using hid
  simp [submitted, hv, hid2, hlk]

lemma submitted_gradeMissing (cfg : Config) (df : Frame) (raw : Option String)
    (sel target : String)
    (hv : validQuery (pyStrip (raw.getD "")) = true)
    (hid : df.cols.contains cfg.idCol = true)
    (hlk : cfg.gradeColumns.lookup sel = some target)
    (htc : df.cols.contains target = false) :
    submitted cfg (some df) raw sel = Outcome.schemaGradeMissing target sel df.cols := by
  have hid2 : cfg.idCol ∈ df.cols := by simpa using hid
  have htc2 : target ∉ df.cols := by simpa using htc
  simp [submitted, hv, hid2, hlk, htc2]

lemma submitted_notFound (cfg : Config) (df : Frame) (raw : Option String)
    (sel target : String)
    (hv : validQuery (pyStrip (raw.getD "")) = true)
    (hid : df.cols.contains cfg.idCol = true)
    (hlk : cfg.gradeColumns.lookup sel = some target)
    (htc : df.cols.contains target = true)
    (hempty : df.rows.filter (matchesQuery df.cols cfg.idCol (pyStrip (raw.getD ""))) = []) :
    submitted cfg (some df) raw sel = Outcome.notFound := by
  have hid2 : cfg.idCol ∈ df.cols := by simpa using hid
  have htc2 : target ∈ df.cols := by simpa using htc
  simp [submitted, hv, hid2, hlk, htc2, find_student_rows, hempty]

lemma submitted_ambiguous (cfg : Config) (df : Frame) (raw : Option String)
    (sel target : String)
    (hv : validQuery (pyStrip (raw.getD "")) = true)
    (hid : df.cols.contains cfg.idCol = true)
    (hlk : cfg.gradeColumns.lookup sel = some target)
    (htc : df.cols.contains target = true)
    (hmany : 1 < (df.rows.filter (matchesQuery df.cols cfg.idCol (pyStrip (raw.getD "")))).length) :
    submitted cfg (some df) raw sel = Outcome.ambiguous := by
  have hne : (df.rows.filter (matchesQuery df.cols cfg.idCol (pyStrip (raw.getD "")))).isEmpty
      = false := by
    rcases h : df.rows.filter (matchesQuery df.cols cfg.idCol (pyStrip (raw.getD ""))) with _ | _
    · rw [h] at hmany; simp at hmany
    · rfl
  have hid2 : cfg.idCol ∈ df.cols := by simpa using hid
  have htc2 : target ∈ df.cols := by simpa using htc
  simp [submitted, hv, hid2, hlk, htc2, find_student_rows, hne, hmany]

lemma submitted_found_eq (cfg : Config) (df : Frame) (raw : Option String)
    (sel target : String) (row : List Cell)
    (hv : validQuery (pyStrip (raw.getD "")) = true)
    (hid : df.cols.contains cfg.idCol = true)
    (hlk : cfg.gradeColumns.lookup sel = some target)
    (htc : df.cols.contains target = true)
    (hone : df.rows.filter (matchesQuery df.cols cfg.idCol (pyStrip (raw.getD ""))) = [row]) :
    submitted cfg (some df) raw sel
      = Outcome.found (renderFound cfg df ⟨df.cols, [row]⟩ target sel) := by
  have hfs : find_student cfg df (pyStrip (raw.getD "")) = Frame.mk df.cols [row] :=
    congrArg (Frame.mk df.cols) ((find_student_rows cfg df (pyStrip (raw.getD ""))).trans hone)
  have hid2 : cfg.idCol ∈ df.cols := by simpa using hid
  have htc2 : target ∈ df.cols := by simpa using htc
  simp [submitted, hv, hid2, hlk, htc2, hfs]

/-!
## Noninterference: the handler reads only the ID, grade and breakdown columns
-/

/-- The columns a lookup for `sel` may read from a row: the ID column,
the configured grade column and the configured breakdown columns. -/
def relevantCols (cfg : Config) (sel : String) : List String :=
  cfg.idCol :: (match cfg.gradeColumns.lookup sel with
    | some t => t :: (cfg.gradeDetails.lookup sel).getD []
    | none => [])

lemma forall2_filter_congr {α : Type} {R : α → α → Prop} {p : α → Bool}
    (hp : ∀ a b, R a b → p a = p b) :
    ∀ {l l' : List α}, List.Forall₂ R l l' → List.Forall₂ R (l.filter p) (l'.filter p) := by
  intro l l' h
  induction h with
  | nil => exact List.Forall₂.nil
  | cons hab htl ih =>
    rename_i a b t t'
    by_cases hpa : p a = true
    · rw [List.filter_cons_of_pos hpa, List.filter_cons_of_pos (by rw [← hp a b hab]; exact hpa)]
      exact List.Forall₂.cons hab ih
    · rw [List.filter_cons_of_neg (by simpa using hpa),
        List.filter_cons_of_neg (by rw [← hp a b hab]; simpa using hpa)]
      exact ih

/-- Two rows agreeing on the relevant columns render identically. -/
lemma renderFound_congr (cfg : Config) (cols : List String) (rows rows' : List (List Cell))
    (r r' : List Cell) (target sel : String)
    (hlk : cfg.gradeColumns.lookup sel = some target)
    (hR : ∀ c ∈ relevantCols cfg sel, frameGet cols r c = frameGet cols r' c) :
    renderFound cfg ⟨cols, rows⟩ ⟨cols, [r]⟩ target sel
      = renderFound cfg ⟨cols, rows'⟩ ⟨cols, [r']⟩ target sel := by
  have hid : frameGet cols r cfg.idCol = frameGet cols r' cfg.idCol :=
    hR _ (by simp [relevantCols])
  have htg : frameGet cols r target = frameGet cols r' target :=
    hR _ (by simp [relevantCols, hlk])
  have hdet : ∀ c ∈ (cfg.gradeDetails.lookup sel).getD [],
      frameGet cols r c = frameGet cols r' c := by
    intro c hc
    exact hR c (by simp [relevantCols, hlk, hc])
  have hpres : ∀ c ∈ ((cfg.gradeDetails.lookup sel).getD []).filter
      (fun c => cols.contains c), frameGet cols r c = frameGet cols r' c :=
    fun c hc => hdet c (List.mem_filter.mp hc).1
  have hmet : (((cfg.gradeDetails.lookup sel).getD []).filter
        (fun c => cols.contains c)).map (fun c => (c, cellToStr (frameGet cols r c)))
      = (((cfg.gradeDetails.lookup sel).getD []).filter
        (fun c => cols.contains c)).map (fun c => (c, cellToStr (frameGet cols r' c))) :=
    List.map_congr_left (fun c hc => by rw [hpres c hc])
  have hpresmap : (((cfg.gradeDetails.lookup sel).getD []).filter
        (fun c => cols.contains c)).map (fun c => frameGet cols r c)
      = (((cfg.gradeDetails.lookup sel).getD []).filter
        (fun c => cols.contains c)).map (fun c => frameGet cols r' c) :=
    List.map_congr_left (fun c hc => by rw [hpres c hc])
  unfold renderFound Frame.select Frame.renameCol
  dsimp only [List.headD_cons, List.map_cons, List.map_nil]
  rw [hid, htg, hmet, hpresmap]

/-- Noninterference for one handler run: two rosters with the same
columns whose rows pairwise agree on the relevant columns produce the
same outcome, whatever else their cells hold. -/
lemma submitted_congr (cfg : Config) (sel : String) (raw : Option String)
    (cols : List String) (rows rows' : List (List Cell))
    (hrows : List.Forall₂ (fun r r' => ∀ c ∈ relevantCols cfg sel,
        frameGet cols r c = frameGet cols r' c) rows rows') :
    submitted cfg (some ⟨cols, rows⟩) raw sel
      = submitted cfg (some ⟨cols, rows'⟩) raw sel := by
  by_cases hv : validQuery (pyStrip (raw.getD "")) = true
  case neg =>
    have hv2 : validQuery (pyStrip (raw.getD "")) = false := by simpa using hv
    rw [submitted_invalid cfg (some ⟨cols, rows⟩) raw sel hv2,
      submitted_invalid cfg (some ⟨cols, rows'⟩) raw sel hv2]
  case pos =>
  by_cases hid : cols.contains cfg.idCol = true
  case neg =>
    have hid2 : cols.contains cfg.idCol = false := by simpa using hid
    rw [submitted_idMissing cfg ⟨cols, rows⟩ raw sel hv hid2,
      submitted_idMissing cfg ⟨cols, rows'⟩ raw sel hv hid2]
  case pos =>
  cases hlk : cfg.gradeColumns.lookup sel with
  | none =>
    rw [submitted_keyError cfg ⟨cols, rows⟩ raw sel hv hid hlk,
      submitted_keyError cfg ⟨cols, rows'⟩ raw sel hv hid hlk]
  | some target =>
  by_cases htc : cols.contains target = true
  case neg =>
    have htc2 : cols.contains target = false := by simpa using htc
    rw [submitted_gradeMissing cfg ⟨cols, rows⟩ raw sel target hv hid hlk htc2,
      submitted_gradeMissing cfg ⟨cols, rows'⟩ raw sel target hv hid hlk htc2]
  case pos =>
  have hidmem : cfg.idCol ∈ relevantCols cfg sel := by simp [relevantCols]
  have h2 := forall2_filter_congr
    (p := matchesQuery cols cfg.idCol (pyStrip (raw.getD "")))
    (fun a b hab => by rw [matchesQuery, matchesQuery, hab _ hidmem]) hrows
  rcases hf1 : rows.filter (matchesQuery cols cfg.idCol (pyStrip (raw.getD "")))
    with _ | ⟨r1, rest⟩
  · rw [hf1] at h2
    have hf2 := List.forall₂_nil_left_iff.mp h2
    rw [submitted_notFound cfg ⟨cols, rows⟩ raw sel target hv hid hlk htc hf1,
      submitted_notFound cfg ⟨cols, rows'⟩ raw sel target hv hid hlk htc hf2]
  · rw [hf1] at h2
    rcases List.forall₂_cons_left_iff.mp h2 with ⟨r1', rest', hR1, hrest, hf2⟩
    rcases rest with _ | ⟨r2, rest2⟩
    · have hrest2 : rest' = [] := List.forall₂_nil_left_iff.mp hrest
      subst hrest2
      rw [submitted_found_eq cfg ⟨cols, rows⟩ raw sel target r1 hv hid hlk htc hf1,
        submitted_found_eq cfg ⟨cols, rows'⟩ raw sel target r1' hv hid hlk htc hf2]
      exact congrArg Outcome.found
        (renderFound_congr cfg cols rows rows' r1 r1' target sel hlk hR1)
    · have hm1 : 1 < (rows.filter
          (matchesQuery cols cfg.idCol (pyStrip (raw.getD "")))).length := by
        rw [hf1]; simp
      have hm2 : 1 < (rows'.filter
          (matchesQuery cols cfg.idCol (pyStrip (raw.getD "")))).length := by
        have hlen := hrest.length_eq
        rw [hf2]
        simp only [List.length_cons, List.length_cons] at hlen ⊢
        omega
      rw [submitted_ambiguous cfg ⟨cols, rows⟩ raw sel target hv hid hlk htc hm1,
        submitted_ambiguous cfg ⟨cols, rows'⟩ raw sel target hv hid hlk htc hm2]

/-- The found display computed explicitly, when a nonempty breakdown
list is configured for the label. -/
lemma renderFound_explicit (cfg : Config) (df : Frame) (row : List Cell) (target sel : String)
    (hdet : (cfg.gradeDetails.lookup sel).getD [] ≠ []) :
    renderFound cfg df ⟨df.cols, [row]⟩ target sel
      = { label := sel,
          value := cellToStr (frameGet df.cols row target),
          policyNote := pyLower sel == "prelim grade",
          breakdown := some
            { missing := ((cfg.gradeDetails.lookup sel).getD []).filter
                (fun c => !(df.cols.contains c)),
              metrics := (((cfg.gradeDetails.lookup sel).getD []).filter
                (fun c => df.cols.contains c)).map
                (fun c => (c, cellToStr (frameGet df.cols row c))),
              table := ⟨(cfg.idCol :: target ::
                  (((cfg.gradeDetails.lookup sel).getD []).filter
                    (fun c => df.cols.contains c))).map
                  (fun c => if c == target then sel else c),
                [(cfg.idCol :: target ::
                    (((cfg.gradeDetails.lookup sel).getD []).filter
                      (fun c => df.cols.contains c))).map
                  (fun c => frameGet df.cols row c)]⟩ },
          details := ⟨["ID Number", sel],
            [[frameGet df.cols row cfg.idCol, frameGet df.cols row target]]⟩ } := by
  unfold renderFound Frame.select Frame.renameCol
  dsimp only
  rw [if_neg (by simpa using hdet)]
  simp only [List.headD_cons, List.map_cons, List.map_nil]

/-- Inversion of the found outcome: it can only arise from a resolved
grade column and a single matching row, rendered by `renderFound`. -/
lemma submitted_found_inv (cfg : Config) (cols : List String) (rows : List (List Cell))
    (raw : Option String) (sel : String) (fd : FoundDisplay)
    (h : submitted cfg (some ⟨cols, rows⟩) raw sel = Outcome.found fd) :
    ∃ target row, cfg.gradeColumns.lookup sel = some target
      ∧ fd = renderFound cfg ⟨cols, rows⟩ ⟨cols, [row]⟩ target sel := by
  by_cases hv : validQuery (pyStrip (raw.getD "")) = true
  case neg =>
    rw [submitted_invalid cfg (some ⟨cols, rows⟩) raw sel (by simpa using hv)] at h
    exact absurd h (by simp)
  case pos =>
  by_cases hid : cols.contains cfg.idCol = true
  case neg =>
    rw [submitted_idMissing cfg ⟨cols, rows⟩ raw sel hv (by simpa using hid)] at h
    exact absurd h (by simp)
  case pos =>
  cases hlk : cfg.gradeColumns.lookup sel with
  | none =>
    rw [submitted_keyError cfg ⟨cols, rows⟩ raw sel hv hid hlk] at h
    exact absurd h (by simp)
  | some target =>
  by_cases htc : cols.contains target = true
  case neg =>
    rw [submitted_gradeMissing cfg ⟨cols, rows⟩ raw sel target hv hid hlk
      (by simpa using htc)] at h
    exact absurd h (by simp)
  case pos =>
  rcases hf : rows.filter (matchesQuery cols cfg.idCol (pyStrip (raw.getD "")))
    with _ | ⟨r1, rest⟩
  · rw [submitted_notFound cfg ⟨cols, rows⟩ raw sel target hv hid hlk htc hf] at h
    exact absurd h (by simp)
  · rcases rest with _ | ⟨r2, rest2⟩
    · rw [submitted_found_eq cfg ⟨cols, rows⟩ raw sel target r1 hv hid hlk htc hf] at h
      injection h with h2
      refine ⟨target, r1, rfl, ?_⟩
      exact h2.symm
    · rw [submitted_ambiguous cfg ⟨cols, rows⟩ raw sel target hv hid hlk htc
        (by rw [hf]; simp)] at h
      exact absurd h (by simp)

lemma submitted_ne_invalid (cfg : Config) (loaded : Option Frame) (raw : Option String)
    (sel : String) (hv : validQuery (pyStrip (raw.getD "")) = true) :
    submitted cfg loaded raw sel ≠ Outcome.invalidQuery := by
  cases loaded with
  | none => rw [submitted_loadFailure cfg raw sel hv]; simp
  | some df =>
    simp only [submitted, hv, Bool.not_true, Bool.false_eq_true, if_false]
    split
    · simp
    · split
      · simp
      · split
        · simp
        · split
          · simp
          · split <;> simp

/-!
## Concrete data used by the witnesses and counterexamples
-/

/-- An ASCII-digit character, the class the specification names. -/
def isAsciiDigit (c : Char) : Bool :=
  '0' ≤ c && c ≤ '9'

/-- A small configuration: ID column "ID", one grade label "Final"
stored in column "FG", with a breakdown list naming "Q1" and "Q2". -/
def cfg0 : Config :=
  { idCol := "ID", gradeColumns := [("Final", "FG")], gradeDetails := [("Final", ["Q1", "Q2"])] }

/-- A one-row roster; the breakdown column "Q2" is absent, and "Extra"
is an unrelated field. -/
def df0 : Frame :=
  { cols := ["ID", "FG", "Q1", "Extra"],
    rows := [[Cell.nat 123456, Cell.str "90", Cell.str "10", Cell.str "secret"]] }

/-- The single row of `df0`. -/
def row0 : List Cell :=
  [Cell.nat 123456, Cell.str "90", Cell.str "10", Cell.str "secret"]

/-- Two rows with the same last-6 ID digits, for the ambiguous case. -/
def rowsA : List (List Cell) :=
  [[Cell.str "123456", Cell.str "90"], [Cell.nat 123456, Cell.str "95"]]

/-- Same ID cells as `rowsA`, entirely different grade cells. -/
def rowsB : List (List Cell) :=
  [[Cell.str "123456", Cell.str "10"], [Cell.nat 123456, Cell.str "20"]]

/-!
## The claims
-/

/-- C1: `find_student` returns exactly the rows of the roster whose
normalized ID has its last six characters equal to the query, in roster
order (the result is the filter of the rows by the match predicate); a
row whose normalized ID is shorter than six characters never matches a
six-character query; an empty roster yields an empty result. -/
theorem find_student_suffix_correct (cfg : Config) (df : Frame) (q : String)
    (hq : q.length = 6) :
    (find_student cfg df q).rows = df.rows.filter (matchesQuery df.cols cfg.idCol q)
      ∧ (∀ r, (normalizeId (frameGet df.cols r cfg.idCol)).length < 6 →
          matchesQuery df.cols cfg.idCol q r = false)
      ∧ (df.rows = [] → (find_student cfg df q).rows = []) := by
  refine ⟨find_student_rows cfg df q, ?_, ?_⟩
  · intro r hshort
    exact matchesQuery_false_of_short df.cols cfg.idCol q r hq hshort
  · intro h
    rw [find_student_rows, h]
    rfl

/-- Witness for C1 at a concrete roster and query. -/
theorem find_student_suffix_correct_witness :
    "123456".length = 6
      ∧ ((find_student cfg0 df0 "123456").rows
            = df0.rows.filter (matchesQuery df0.cols cfg0.idCol "123456")
          ∧ (∀ r, (normalizeId (frameGet df0.cols r cfg0.idCol)).length < 6 →
              matchesQuery df0.cols cfg0.idCol "123456" r = false)
          ∧ (df0.rows = [] → (find_student cfg0 df0 "123456").rows = [])) :=
  ⟨rfl, find_student_suffix_correct cfg0 df0 "123456" rfl⟩

/-- C2 counterexample: the query "12345²" is six characters long and
contains a character that is not an ASCII digit, yet the validation of
the handler accepts it (Python `str.isdigit` is true on the superscript
digit), so the run proceeds to the lookup and ends in the not-found
outcome instead of the InvalidQuery error the claim requires. -/
theorem validation_not_ascii_only :
    "12345²".data.all isAsciiDigit = false
      ∧ "12345²".length = 6
      ∧ validQuery "12345²" = true
      ∧ submitted cfg0 (some df0) (some "12345²") "Final" = Outcome.notFound
      ∧ submitted cfg0 (some df0) (some "12345²") "Final" ≠ Outcome.invalidQuery := by
  refine ⟨by decide, by decide, by decide, by decide, by decide⟩

/-- C2 (amended): the validation accepts the (stripped) submitted query
iff it has exactly six characters and every character passes the digit
check of Python `str.isdigit` — a class that contains the ASCII digits
but is wider than them; every other query is rejected as InvalidQuery
before any sheet is consulted (the outcome is InvalidQuery for every
`loaded` argument, including a failed load). -/
theorem submitted_invalidQuery_iff (cfg : Config) (loaded : Option Frame)
    (raw : Option String) (sel : String) :
    submitted cfg loaded raw sel = Outcome.invalidQuery
      ↔ ¬ ((pyStrip (raw.getD "")).data.length = 6
            ∧ ∀ c ∈ (pyStrip (raw.getD "")).data, pyIsDigitChar c = true) := by
  rw [← validQuery_iff]
  constructor
  · intro h hv
    exact submitted_ne_invalid cfg loaded raw sel hv h
  · intro h
    cases hb : validQuery (pyStrip (raw.getD "")) with
    | false => exact submitted_invalid cfg loaded raw sel hb
    | true => exact absurd hb h

/-- C4: the identifier normalizer is total — every cell value yields a
string — and a missing/blank cell (which the loader delivers as the
empty string) normalizes to the empty string. -/
theorem normalizeId_total_and_empty :
    normalizeId Cell.empty = ""
      ∧ normalizeId (Cell.str "") = ""
      ∧ (∀ c : Cell, ∃ s : String, normalizeId c = s) :=
  ⟨rfl, rfl, fun c => ⟨normalizeId c, rfl⟩⟩

/-- C5: the normalizer removes every occurrence of the substring ".0",
wherever it occurs — after any dot-free stretch the occurrence is
deleted, not only the trailing numeric artifact — and then strips the
surrounding whitespace; witnessed on a mid-string occurrence, on a
whitespace-padded trailing artifact and on a float-typed cell. -/
theorem normalizeId_removes_every_dot0 :
    (∀ a b : List Char, (∀ c ∈ a, c ≠ '.') →
        normalizeId (Cell.str ⟨a ++ '.' :: '0' :: b⟩) = pyStrip ⟨a ++ removeDot0 b⟩)
      ∧ normalizeId (Cell.str "12.0345") = "12345"
      ∧ normalizeId (Cell.str " 123456.0 ") = "123456"
      ∧ normalizeId (Cell.floatWhole 123456) = "123456" := by
  refine ⟨?_, by decide, by decide, by decide⟩
  intro a b ha
  show pyStrip ⟨removeDot0 (cellToStr (Cell.str ⟨a ++ '.' :: '0' :: b⟩)).data⟩ = _
  rw [show (cellToStr (Cell.str ⟨a ++ '.' :: '0' :: b⟩)).data = a ++ '.' :: '0' :: b from rfl,
    removeDot0_mid a b ha]

/-- C3: when more than one row matches the suffix, the run terminates in
the ambiguous outcome — a constructor carrying no row data, rendered as
a fixed contact-an-administrator notice — and two rosters with the same
columns whose rows agree on the ID column produce identical output no
matter what the other cells of the matching rows hold. -/
theorem ambiguous_discloses_nothing (cfg : Config) (sel : String) (raw : Option String)
    (cols : List String) (rows rows' : List (List Cell)) (target : String)
    (hv : validQuery (pyStrip (raw.getD "")) = true)
    (hid : cols.contains cfg.idCol = true)
    (hlk : cfg.gradeColumns.lookup sel = some target)
    (htc : cols.contains target = true)
    (hrows : List.Forall₂ (fun r r' =>
        frameGet cols r cfg.idCol = frameGet cols r' cfg.idCol) rows rows')
    (hmany : 1 < (rows.filter (matchesQuery cols cfg.idCol (pyStrip (raw.getD "")))).length) :
    submitted cfg (some ⟨cols, rows⟩) raw sel = Outcome.ambiguous
      ∧ submitted cfg (some ⟨cols, rows'⟩) raw sel = Outcome.ambiguous
      ∧ submitted cfg (some ⟨cols, rows⟩) raw sel
          = submitted cfg (some ⟨cols, rows'⟩) raw sel := by
  have h2 := forall2_filter_congr
    (p := matchesQuery cols cfg.idCol (pyStrip (raw.getD "")))
    (fun a b hab => by rw [matchesQuery, matchesQuery, hab]) hrows
  have hm2 : 1 < (rows'.filter
      (matchesQuery cols cfg.idCol (pyStrip (raw.getD "")))).length := by
    rw [← h2.length_eq]; exact hmany
  have e1 := submitted_ambiguous cfg ⟨cols, rows⟩ raw sel target hv hid hlk htc hmany
  have e2 := submitted_ambiguous cfg ⟨cols, rows'⟩ raw sel target hv hid hlk htc hm2
  exact ⟨e1, e2, e1.trans e2.symm⟩

/-- Witness for C3: two duplicate-ID rosters with entirely different
grade cells, both ending in the same ambiguous outcome. -/
theorem ambiguous_discloses_nothing_witness :
    submitted cfg0 (some ⟨["ID", "FG"], rowsA⟩) (some "123456") "Final" = Outcome.ambiguous
      ∧ submitted cfg0 (some ⟨["ID", "FG"], rowsB⟩) (some "123456") "Final" = Outcome.ambiguous
      ∧ submitted cfg0 (some ⟨["ID", "FG"], rowsA⟩) (some "123456") "Final"
          = submitted cfg0 (some ⟨["ID", "FG"], rowsB⟩) (some "123456") "Final" :=
  ambiguous_discloses_nothing cfg0 "Final" (some "123456") ["ID", "FG"] rowsA rowsB "FG"
    (by decide) (by decide) (by decide) (by decide)
    (List.Forall₂.cons (by decide) (List.Forall₂.cons (by decide) List.Forall₂.nil))
    (by decide)

/-- C6: with a validated query, a roster lacking the configured ID
column (resp. the selected grade column) makes the handler halt with the
SchemaMismatch outcome naming the missing column and carrying the
columns actually found — whatever rows the roster holds, so no row
matching takes part in the decision. -/
theorem schema_mismatch_reported (cfg : Config) (raw : Option String) (sel target : String)
    (cols : List String)
    (hv : validQuery (pyStrip (raw.getD "")) = true) :
    (cols.contains cfg.idCol = false →
        ∀ rows, submitted cfg (some ⟨cols, rows⟩) raw sel
          = Outcome.schemaIdMissing cfg.idCol cols)
      ∧ (cols.contains cfg.idCol = true →
          cfg.gradeColumns.lookup sel = some target →
          cols.contains target = false →
          ∀ rows, submitted cfg (some ⟨cols, rows⟩) raw sel
            = Outcome.schemaGradeMissing target sel cols) := by
  constructor
  · intro hid rows
    exact submitted_idMissing cfg ⟨cols, rows⟩ raw sel hv hid
  · intro hid hlk htc rows
    exact submitted_gradeMissing cfg ⟨cols, rows⟩ raw sel target hv hid hlk htc

/-- Witness for C6 on a roster whose only column is the ID column, so
the grade column "FG" is missing. -/
theorem schema_mismatch_reported_witness :
    validQuery (pyStrip ((some "123456").getD "")) = true
      ∧ ((["ID"].contains cfg0.idCol = false →
            ∀ rows, submitted cfg0 (some ⟨["ID"], rows⟩) (some "123456") "Final"
              = Outcome.schemaIdMissing cfg0.idCol ["ID"])
          ∧ (["ID"].contains cfg0.idCol = true →
              cfg0.gradeColumns.lookup "Final" = some "FG" →
              ["ID"].contains "FG" = false →
              ∀ rows, submitted cfg0 (some ⟨["ID"], rows⟩) (some "123456") "Final"
                = Outcome.schemaGradeMissing "FG" "Final" ["ID"])) :=
  ⟨by decide, schema_mismatch_reported cfg0 (some "123456") "Final" "FG" ["ID"] (by decide)⟩

/-- C7: with exactly one matching row and a nonempty configured
breakdown list of which some columns are missing from the roster, the
run still ends in the found outcome: it shows the grade value, shows a
breakdown value for exactly the present breakdown columns, and emits a
warning naming exactly the missing breakdown columns. -/
theorem breakdown_degrades_gracefully (cfg : Config) (df : Frame) (raw : Option String)
    (sel target : String) (row : List Cell)
    (hv : validQuery (pyStrip (raw.getD "")) = true)
    (hid : df.cols.contains cfg.idCol = true)
    (hlk : cfg.gradeColumns.lookup sel = some target)
    (htc : df.cols.contains target = true)
    (hone : df.rows.filter (matchesQuery df.cols cfg.idCol (pyStrip (raw.getD ""))) = [row])
    (hdet : (cfg.gradeDetails.lookup sel).getD [] ≠ [])
    (hmiss : ((cfg.gradeDetails.lookup sel).getD []).filter
        (fun c => !(df.cols.contains c)) ≠ []) :
    ∃ bd : BreakdownDisplay,
      submitted cfg (some df) raw sel
          = Outcome.found { label := sel,
                            value := cellToStr (frameGet df.cols row target),
                            policyNote := pyLower sel == "prelim grade",
                            breakdown := some bd,
                            details := ⟨["ID Number", sel],
                              [[frameGet df.cols row cfg.idCol,
                                frameGet df.cols row target]]⟩ }
        ∧ bd.missing = ((cfg.gradeDetails.lookup sel).getD []).filter
            (fun c => !(df.cols.contains c))
        ∧ bd.missing ≠ []
        ∧ bd.metrics = (((cfg.gradeDetails.lookup sel).getD []).filter
            (fun c => df.cols.contains c)).map
            (fun c => (c, cellToStr (frameGet df.cols row c))) := by
  rw [submitted_found_eq cfg df raw sel target row hv hid hlk htc hone,
    renderFound_explicit cfg df row target sel hdet]
  exact ⟨_, rfl, rfl, hmiss, rfl⟩

/-- Witness for C7: the one-row roster `df0` is missing breakdown column
"Q2" but has "Q1"; the run is found, with the warning naming "Q2". -/
theorem breakdown_degrades_gracefully_witness :
    ∃ bd : BreakdownDisplay,
      submitted cfg0 (some df0) (some "123456") "Final"
          = Outcome.found { label := "Final",
                            value := cellToStr (frameGet df0.cols row0 "FG"),
                            policyNote := pyLower "Final" == "prelim grade",
                            breakdown := some bd,
                            details := ⟨["ID Number", "Final"],
                              [[frameGet df0.cols row0 cfg0.idCol,
                                frameGet df0.cols row0 "FG"]]⟩ }
        ∧ bd.missing = ((cfg0.gradeDetails.lookup "Final").getD []).filter
            (fun c => !(df0.cols.contains c))
        ∧ bd.missing ≠ []
        ∧ bd.metrics = (((cfg0.gradeDetails.lookup "Final").getD []).filter
            (fun c => df0.cols.contains c)).map
            (fun c => (c, cellToStr (frameGet df0.cols row0 c))) :=
  breakdown_degrades_gracefully cfg0 df0 (some "123456") "Final" "FG" row0
    (by decide) (by decide) (by decide) (by decide) (by decide) (by decide) (by decide)

/-- The column list of `df0`, and a row differing from `row0` only in
the unrelated "Extra" cell. -/
def cols0 : List String := ["ID", "FG", "Q1", "Extra"]

/-- `row0` with the unrelated "Extra" cell changed. -/
def rowC : List Cell :=
  [Cell.nat 123456, Cell.str "90", Cell.str "10", Cell.str "changed"]

/-- C8: the handler reads a row only through the ID column, the selected
grade column and the configured breakdown columns: two rosters with the
same columns whose rows agree there (so in particular rosters differing
only in unrelated cells of the matched row) produce the same outcome;
and on the found outcome both exposed tables project only those columns
— the details table carries exactly the ID and grade columns, and the
breakdown table exactly the ID, grade and present breakdown columns. -/
theorem found_projection_minimal (cfg : Config) (sel : String) (raw : Option String)
    (cols : List String) (rows rows' : List (List Cell))
    (hrows : List.Forall₂ (fun r r' => ∀ c ∈ relevantCols cfg sel,
        frameGet cols r c = frameGet cols r' c) rows rows') :
    submitted cfg (some ⟨cols, rows⟩) raw sel = submitted cfg (some ⟨cols, rows'⟩) raw sel
      ∧ (∀ fd, submitted cfg (some ⟨cols, rows⟩) raw sel = Outcome.found fd →
          fd.details.cols = ["ID Number", sel]
            ∧ ∀ bd, fd.breakdown = some bd →
                ∃ target, cfg.gradeColumns.lookup sel = some target
                  ∧ bd.table.cols = (cfg.idCol :: target ::
                      (((cfg.gradeDetails.lookup sel).getD []).filter
                        (fun c => cols.contains c))).map
                      (fun c => if c == target then sel else c)) := by
  refine ⟨submitted_congr cfg sel raw cols rows rows' hrows, ?_⟩
  intro fd hfd
  obtain ⟨target, row, hlk, hfd2⟩ := submitted_found_inv cfg cols rows raw sel fd hfd
  subst hfd2
  constructor
  · rfl
  · intro bd hbd
    refine ⟨target, hlk, ?_⟩
    by_cases hdet : (cfg.gradeDetails.lookup sel).getD [] = []
    · simp [renderFound, hdet] at hbd
    · simp only [renderFound] at hbd
      rw [if_neg (by simpa using hdet)] at hbd
      have hbd2 := Option.some.inj hbd
      rw [← hbd2]
      simp [Frame.select, Frame.renameCol]

/-- Witness for C8: changing only the unrelated "Extra" cell of the
matched row leaves the whole outcome unchanged, and the exposed tables
carry only the ID, grade and present breakdown columns. -/
theorem found_projection_minimal_witness :
    submitted cfg0 (some ⟨cols0, [row0]⟩) (some "123456") "Final"
        = submitted cfg0 (some ⟨cols0, [rowC]⟩) (some "123456") "Final"
      ∧ (∀ fd, submitted cfg0 (some ⟨cols0, [row0]⟩) (some "123456") "Final"
            = Outcome.found fd →
          fd.details.cols = ["ID Number", "Final"]
            ∧ ∀ bd, fd.breakdown = some bd →
                ∃ target, cfg0.gradeColumns.lookup "Final" = some target
                  ∧ bd.table.cols = (cfg0.idCol :: target ::
                      (((cfg0.gradeDetails.lookup "Final").getD []).filter
                        (fun c => cols0.contains c))).map
                      (fun c => if c == target then "Final" else c)) :=
  found_projection_minimal cfg0 "Final" (some "123456") cols0 [row0] [rowC]
    (List.Forall₂.cons (by decide) List.Forall₂.nil)

/-- C9: the loader names every roster column by the stripped
stringification `str(c).strip()` of its header cell; stripping is
insensitive to leading/trailing whitespace and idempotent, so column
resolution cannot be affected by surrounding whitespace in headers. -/
theorem load_sheet_header_whitespace (headers : List Cell) (records : List (List Cell)) :
    (load_sheet headers records).cols = headers.map (fun c => pyStrip (cellToStr c))
      ∧ (∀ a b : List Char, ∀ s : String, (∀ c ∈ a, pyIsSpace c = true) →
          (∀ c ∈ b, pyIsSpace c = true) → pyStrip ⟨a ++ s.data ++ b⟩ = pyStrip s)
      ∧ (∀ s : String, pyStrip (pyStrip s) = pyStrip s) :=
  ⟨rfl, fun a b s ha hb => pyStrip_pad a b s ha hb, pyStrip_idem⟩

/-- C10: a missing submission is treated as the empty string, the raw
submission is stripped before anything else, the run is rejected as
InvalidQuery exactly when the stripped form fails the 6-digit check,
and the whole run on the raw input equals the run on the stripped
input, so validation and matching only ever see the stripped query. -/
theorem submitted_uses_stripped_query (cfg : Config) (loaded : Option Frame)
    (raw : Option String) (sel : String) :
    (submitted cfg loaded raw sel = Outcome.invalidQuery
        ↔ validQuery (pyStrip (raw.getD "")) = false)
      ∧ submitted cfg loaded raw sel
          = submitted cfg loaded (some (pyStrip (raw.getD ""))) sel
      ∧ submitted cfg loaded none sel = submitted cfg loaded (some "") sel := by
  refine ⟨⟨?_, ?_⟩, ?_, rfl⟩
  · intro h
    cases hb : validQuery (pyStrip (raw.getD "")) with
    | false => rfl
    | true => exact absurd h (submitted_ne_invalid cfg loaded raw sel hb)
  · exact submitted_invalid cfg loaded raw sel
  · simp only [submitted, Option.getD_some, pyStrip_idem]

/-- C10 counterexample: the submission " 12345² " strips to "12345²",
whose characters are not all ASCII digits, yet the handler accepts it
and runs the lookup on the stripped form — the acceptance condition is
the Python digit check, not the ASCII digit class. -/
theorem stripped_query_accepts_non_ascii :
    pyStrip ((some " 12345² ").getD "") = "12345²"
      ∧ "12345²".data.all isAsciiDigit = false
      ∧ submitted cfg0 (some df0) (some " 12345² ") "Final" = Outcome.notFound
      ∧ submitted cfg0 (some df0) (some " 12345² ") "Final" ≠ Outcome.invalidQuery := by
  refine ⟨by decide, by decide, by decide, by decide⟩
